import Mathlib

/-!
Verification of the autopsy incident-response core: the triage decision
engine (`internal/triage/agent.go`), the incident orchestrator
(`internal/api/server.go`, `handleCreateAlert`), the availability
aggregator (`internal/api/server.go`, `buildServiceAvailability` and the
overall-status derivation in `handlePublicStatusPage`), and the in-memory
store (`internal/store/memory.go`).

Modelling conventions:
* Go `time.Time` instants and `time.Duration` values are embedded as `Int`
  nanoseconds (`time.Minute = 60e9` ns); the Go zero `time.Time` is the
  integer `0`.
* Go `float64` arithmetic on availability percentages is embedded over `ℚ`.
* Go `map[string]string` label maps are embedded as association lists; a
  `nil` map is the empty list, and `m[k]` with comma-ok is `List.lookup`.
* `strings.ToLower` is embedded with `Char.toLower`, which lowers the same
  ASCII range exercised by the triage keyword predicates.
-/

namespace Autopsy

/-- Embeds Go `strings.ToLower` (character-wise lowering). -/
def lowerStr (s : String) : String := String.mk (s.data.map Char.toLower)

/-- `leadsWith pat hay` is true when `pat` occurs at the start of `hay`. -/
def leadsWith : List Char → List Char → Bool
  | [], _ => true
  | _ :: _, [] => false
  | p :: ps, c :: cs => p == c && leadsWith ps cs

/-- `charsContain pat hay` is true when `pat` occurs contiguously in `hay`. -/
def charsContain (pat : List Char) : List Char → Bool
  | [] => leadsWith pat []
  | c :: rest => leadsWith pat (c :: rest) || charsContain pat rest

/-- Embeds Go `strings.Contains`. -/
def strContains (hay pat : String) : Bool := charsContain pat.data hay.data

/-- Embeds Go `strings.Contains(strings.ToLower(s), pat)`. -/
def containsLower (s pat : String) : Bool := strContains (lowerStr s) pat

/-- Embeds Go `fmt.Sprintf("%q", s)` for strings without characters that
`%q` escapes (the only use sites quote metric label values verbatim). -/
def goQuote (s : String) : String := "\"" ++ s ++ "\""

/-- One step of `app.TriageReport.Timeline` (`internal/app`, `TriageTimelineStep`). -/
structure TriageTimelineStep where
  phase : String
  detail : String
  timestamp : Int
deriving DecidableEq, Repr

/-- `app.TriageReport` (`internal/app`). -/
structure TriageReport where
  summary : String
  likelyRootCause : String
  suggestedActions : List String
  decision : String
  issueTitle : String
  autoFixPlan : List String
  timeline : List TriageTimelineStep
  confidence : String
  reviewedAt : Int
deriving DecidableEq, Repr

/-- `app.Alert` (`internal/app`). The `payload` map is opaque to the core
and never read by any verified function, so it is not embedded. Go's
`Severity` is a string type, embedded as `String`. -/
structure Alert where
  id : String
  source : String
  title : String
  description : String
  severity : String
  status : String
  labels : List (String × String)
  createdAt : Int
  triage : Option TriageReport
deriving DecidableEq, Repr

/-- `app.Service` (`internal/app`). -/
structure Service where
  id : String
  name : String
  description : String
  createdAt : Int
deriving DecidableEq, Repr

/-- `app.Incident` (`internal/app`). -/
structure Incident where
  id : String
  alertID : String
  service : String
  title : String
  severity : String
  status : String
  statusPageURL : String
  createdAt : Int
  resolvedAt : Option Int
deriving DecidableEq, Repr

/-- `app.ServiceAvailability` (`internal/app`); `availabilityPercent` is a
Go `float64`, embedded over `ℚ`. -/
structure ServiceAvailability where
  service : String
  availabilityPercent : ℚ
  downtimeMinutes : Int
  periodStart : Int
  periodEnd : Int
deriving DecidableEq, Repr

/-- Nanoseconds in one Go `time.Second`. -/
def nsPerSecond : Int := 1000000000

/-- Nanoseconds in one Go `time.Minute`. -/
def nsPerMinute : Int := 60000000000

/-- Nanoseconds in one Go `time.Hour`. -/
def nsPerHour : Int := 3600000000000

/-- `HeuristicAgent.Review` (`internal/triage/agent.go`). `now` is the
value of `time.Now().UTC()` taken at the top of the function. -/
def review (now : Int) (alert : Alert) : TriageReport :=
  let rootCause := "Insufficient telemetry for root-cause confidence"
  let rootCause :=
    match alert.labels.lookup "metric" with
    | some metric => "Anomaly detected in metric " ++ goQuote metric ++ "; likely saturation/regression"
    | none => rootCause
  let rootCause :=
    if containsLower alert.description "timeout" then
      "Downstream dependency timeout causing user impact"
    else rootCause
  let actions := [
    "Check SLO burn rate and error budget policy per Google SRE guidance",
    "Review recent deploy and rollback if correlated",
    "Verify service-level indicators in logs/metrics dashboard"]
  let confidence := if alert.severity = "critical" then "high" else "medium"
  let decision := "create_issue"
  let summary := "Alert reviewed; routed for follow-up issue triage"
  let autoFixPlan : List String := []
  let issueTitle := "Follow-up: " ++ alert.title ++ " (" ++ alert.severity ++ ")"
  let (decision, summary, issueTitle) :=
    if alert.severity = "critical" ∨ containsLower alert.description "customer" then
      ("start_incident", "High-risk customer impact detected; incident response should start now", "")
    else (decision, summary, issueTitle)
  let (decision, summary, autoFixPlan, issueTitle) :=
    if alert.severity = "warning" ∧ containsLower alert.description "retry" then
      ("auto_fix", "Alert appears remediable via safe automation",
        ["Scale workers for affected queue by +20%",
         "Invalidate stale cache entries for impacted route",
         "Monitor recovery for 15 minutes before resolving"], "")
    else (decision, summary, autoFixPlan, issueTitle)
  let timeline := [
    ⟨"received", "Alert ingested and queued for AI triage", now - 5 * nsPerSecond⟩,
    ⟨"context", "Correlated severity, labels, and recent error patterns", now - 3 * nsPerSecond⟩,
    ⟨"analysis", rootCause, now - 1 * nsPerSecond⟩,
    ⟨"decision", "Decision: " ++ decision, now⟩]
  { summary := summary
    likelyRootCause := rootCause
    suggestedActions := actions
    decision := decision
    issueTitle := issueTitle
    autoFixPlan := autoFixPlan
    timeline := timeline
    confidence := confidence
    reviewedAt := now }

/-- Embeds Go `fmt.Sprintf("%s-%06d", pre, n)`: zero-pad `n` to at least
six digits (`MemoryStore.nextID`, `internal/store/memory.go`). -/
def formatID (pre : String) (n : Nat) : String :=
  let digits := toString n
  pre ++ "-" ++ String.mk (List.replicate (6 - digits.length) '0') ++ digits

/-- `store.MemoryStore` (`internal/store/memory.go`): the mutable fields
read or written by the verified operations. The `tools`, user and role
collections are untouched by the orchestrator and aggregator and are not
embedded. -/
structure MemoryStore where
  counter : Nat
  alerts : List Alert
  incidents : List Incident
  services : List Service
deriving DecidableEq, Repr

/-- `store.NewMemoryStore()`: the zero-valued store. -/
def newMemoryStore : MemoryStore :=
  { counter := 0, alerts := [], incidents := [], services := [] }

/-- `MemoryStore.nextID`: increment the counter and format the new id. -/
def nextID (s : MemoryStore) (pre : String) : String × MemoryStore :=
  let n := s.counter + 1
  (formatID pre n, { s with counter := n })

/-- `MemoryStore.SaveAlert`. The Go method mutates the fields one after
another; the independent field writes are embedded as one simultaneous
record update. -/
def saveAlert (s : MemoryStore) (a : Alert) (now : Int) : Alert × MemoryStore :=
  let saved : Alert :=
    { a with id := (nextID s "alt").1, createdAt := now,
             status := if a.status = "" then "received" else a.status }
  (saved, { (nextID s "alt").2 with alerts := (nextID s "alt").2.alerts ++ [saved] })

/-- The Go `for i := range s.alerts { if match { mutate; return } }` loop
shape shared by `UpdateAlertTriage` and `UpdateAlertStatus`: rewrite the
first element satisfying `p`, leave the rest untouched. -/
def updateFirstAlert (p : Alert → Bool) (f : Alert → Alert) : List Alert → List Alert
  | [] => []
  | a :: rest => if p a then f a :: rest else a :: updateFirstAlert p f rest

/-- `MemoryStore.UpdateAlertTriage`; the `Option String` is the Go `error`
result (`none` is `nil`), which this method returns on every path. -/
def updateAlertTriage (s : MemoryStore) (alertID : String) (triage : TriageReport) :
    Option String × MemoryStore :=
  let alerts := updateFirstAlert (fun a => a.id == alertID)
    (fun a => { a with triage := some triage, status := "triaged" }) s.alerts
  (none, { s with alerts := alerts })

/-- `MemoryStore.UpdateAlertStatus`; the `Option String` is the Go `error`
result (`none` is `nil`), which this method returns on every path. -/
def updateAlertStatus (s : MemoryStore) (alertID status : String) :
    Option String × MemoryStore :=
  let alerts := updateFirstAlert (fun a => a.id == alertID)
    (fun a => { a with status := status }) s.alerts
  (none, { s with alerts := alerts })

/-- The empty-name defaulting shared by `MemoryStore.EnsureService` and
`MemoryStore.CreateIncident`: `if name == "" { name = memoryServiceUnknown }`. -/
def serviceKey (name : String) : String :=
  if name = "" then "unknown" else name

/-- `MemoryStore.EnsureService`. -/
def ensureService (s : MemoryStore) (name : String) (now : Int) : Service × MemoryStore :=
  match s.services.find? (fun svc => svc.name == serviceKey name) with
  | some svc => (svc, s)
  | none =>
    let svc : Service :=
      { id := (nextID s "svc").1, name := serviceKey name, description := "", createdAt := now }
    (svc, { (nextID s "svc").2 with services := (nextID s "svc").2.services ++ [svc] })

/-- `MemoryStore.CreateIncident`. The Go zero `time.Time` tested by
`IsZero()` is the integer `0` in this embedding; the sequential field
mutations of the Go method touch independent fields and are embedded as
one simultaneous record update. -/
def createIncident (s : MemoryStore) (incident : Incident) (now : Int) :
    Incident × MemoryStore :=
  let s1 := (nextID s "inc").2
  let inc : Incident :=
    { incident with
      id := (nextID s "inc").1,
      createdAt := if incident.createdAt = 0 then now else incident.createdAt,
      service := serviceKey incident.service,
      resolvedAt :=
        if incident.status = "resolved" ∧ incident.resolvedAt = none then some now
        else incident.resolvedAt }
  let s2 :=
    if s1.services.any (fun svc => svc.name == inc.service) then s1
    else
      { (nextID s1 "svc").2 with
        services := (nextID s1 "svc").2.services ++
          [{ id := (nextID s1 "svc").1, name := inc.service, description := "",
             createdAt := now }] }
  (inc, { s2 with incidents := s2.incidents ++ [inc] })

/-- The request normalization at the top of `Server.handleCreateAlert`
(`internal/api/server.go`): default `source` to "grafana" and `status` to
"received" when blank. -/
def normalizeRequest (alertRequest : Alert) : Alert :=
  { alertRequest with
    source := if alertRequest.source = "" then "grafana" else alertRequest.source,
    status := if alertRequest.status = "" then "received" else alertRequest.status }

/-- `Server.handleCreateAlert` (`internal/api/server.go`) against the
in-memory store, whose persistence calls all succeed; the result is the
final store, the response alert, and the response incident when one was
created. -/
def handleCreateAlert (s : MemoryStore) (alertRequest : Alert) (now : Int) :
    MemoryStore × Alert × Option Incident :=
  let alertRequest : Alert := normalizeRequest alertRequest
  let alert := (saveAlert s alertRequest now).1
  let s1 := (saveAlert s alertRequest now).2
  let triageReport := review now alert
  let s2 := (updateAlertTriage s1 alert.id triageReport).2
  let alert : Alert := { alert with triage := some triageReport, status := "triaged" }
  if triageReport.decision ≠ "start_incident" then (s2, alert, none)
  else
    let service :=
      if (alert.labels.lookup "service").getD "" ≠ "" then (alert.labels.lookup "service").getD ""
      else "unknown"
    let s3 := (ensureService s2 service now).2
    let newIncident : Incident :=
      { id := "", alertID := alert.id, service := service,
        title := "Auto-created incident for triaged alert: " ++ alert.title,
        severity := alert.severity, status := "investigating",
        statusPageURL := "/status/" ++ alert.id, createdAt := 0, resolvedAt := none }
    let incident := (createIncident s3 newIncident now).1
    let s4 := (createIncident s3 newIncident now).2
    let s5 := (updateAlertStatus s4 alert.id "incident_open").2
    (s5, { alert with status := "incident_open" }, some incident)

/-- One iteration of the overall-status loop in
`Server.handlePublicStatusPage` (`internal/api/server.go`): incidents
whose status is neither "investigating" nor "identified" are skipped; an
open critical incident forces "major_outage" unconditionally; an open
non-critical incident sets "degraded_performance" only from the
"operational" baseline. -/
def statusStep (overall : String) (incident : Incident) : String :=
  if incident.status ≠ "investigating" ∧ incident.status ≠ "identified" then overall
  else if incident.severity = "critical" then "major_outage"
  else if overall = "operational" then "degraded_performance"
  else overall

/-- The overall status computed by `Server.handlePublicStatusPage`:
the loop over the incident collection starting from "operational". -/
def overallStatus (incidents : List Incident) : String :=
  incidents.foldl statusStep "operational"

/-- The service attribution at the top of the incident loop of
`buildServiceAvailability` (`internal/api/server.go`): empty service names
fall back to "unknown". -/
def attributedService (incident : Incident) : String :=
  if incident.service = "" then "unknown" else incident.service

/-- Adding a key to the embedded key set of the Go map
`serviceDowntime map[string]time.Duration`. -/
def addKey (ks : List String) (k : String) : List String :=
  if k ∈ ks then ks else ks ++ [k]

/-- One iteration of the seeding loop of `buildServiceAvailability`:
`serviceDowntime[name] = 0` for every known service, skipping empty names.
The embedded downtime map is a pair of a key list and a total function
with default `0`, matching the Go map whose zero value for a missing
`time.Duration` entry is `0`. -/
def seedStep (ks : List String) (svc : Service) : List String :=
  if svc.name = "" then ks else addKey ks svc.name

/-- The key set of the downtime accumulator after the seeding loop of
`buildServiceAvailability`. -/
def seedKeys (services : List Service) : List String :=
  services.foldl seedStep []

/-- `incidentEnd` in `buildServiceAvailability`: `incident.ResolvedAt` if
set, else the period end. -/
def incidentEndAt (periodEnd : Int) (incident : Incident) : Int :=
  match incident.resolvedAt with
  | some t => t
  | none => periodEnd

/-- One iteration of the incident loop of `buildServiceAvailability` on
the downtime accumulator (key set plus default-0 downtime function): the
attributed service's entry is ensured, the incident is skipped when it
lies outside the window, and otherwise the overlap clipped to
`[periodStart, periodEnd]` is added to the attributed service. -/
def availStep (periodStart periodEnd : Int) (acc : List String × (String → Int))
    (incident : Incident) : List String × (String → Int) :=
  let service := attributedService incident
  let keys := addKey acc.1 service
  if incidentEndAt periodEnd incident < periodStart ∨ incident.createdAt > periodEnd then
    (keys, acc.2)
  else if incident.createdAt > incidentEndAt periodEnd incident then (keys, acc.2)
  else
    let start := if incident.createdAt < periodStart then periodStart else incident.createdAt
    let stop :=
      if incidentEndAt periodEnd incident > periodEnd then periodEnd
      else incidentEndAt periodEnd incident
    if stop > start then
      (keys, fun n => if n = service then acc.2 n + (stop - start) else acc.2 n)
    else (keys, acc.2)

/-- The downtime one incident contributes to its attributed service in
`buildServiceAvailability`: zero when the incident misses the window,
otherwise its overlap clipped to the window (mirrors the skip conditions
and clipping of `availStep`). -/
def incidentCharge (periodStart periodEnd : Int) (incident : Incident) : Int :=
  if incidentEndAt periodEnd incident < periodStart ∨ incident.createdAt > periodEnd then 0
  else if incident.createdAt > incidentEndAt periodEnd incident then 0
  else
    let start := if incident.createdAt < periodStart then periodStart else incident.createdAt
    let stop :=
      if incidentEndAt periodEnd incident > periodEnd then periodEnd
      else incidentEndAt periodEnd incident
    if stop > start then stop - start else 0

/-- Specification-side description of a service's total downtime: the sum,
over the incident list with multiplicity, of each incident's clipped
charge — overlapping incidents on one service are summed, not merged. -/
def chargeSum (periodStart periodEnd : Int) (n : String) (incidents : List Incident) : Int :=
  (incidents.map (fun incident =>
    if attributedService incident = n then incidentCharge periodStart periodEnd incident
    else 0)).sum

/-- Lexicographic byte order on strings as compared by Go `sort.Strings`
(UTF-8 byte order agrees with code-point order), on the char lists. -/
def charListLe : List Char → List Char → Bool
  | [], _ => true
  | _ :: _, [] => false
  | a :: as, b :: bs =>
    if a.toNat < b.toNat then true
    else if b.toNat < a.toNat then false
    else charListLe as bs

/-- Go `sort.Strings` comparison. -/
def strLe (a b : String) : Bool := charListLe a.data b.data

/-- The output-row construction of the final loop of
`buildServiceAvailability`: clamp negative downtime to zero, compute the
availability percentage over the period duration and clamp it below at
zero, and truncate the downtime to whole minutes. -/
def availRow (acc : List String × (String → Int)) (periodStart periodEnd : Int)
    (name : String) : ServiceAvailability :=
  let downtime := acc.2 name
  let downtime := if downtime < 0 then 0 else downtime
  let availability : ℚ := 100 - ((downtime : ℚ) / ((periodEnd - periodStart : Int) : ℚ)) * 100
  let availability := if availability < 0 then 0 else availability
  { service := name, availabilityPercent := availability,
    downtimeMinutes := downtime / nsPerMinute,
    periodStart := periodStart, periodEnd := periodEnd }

/-- `buildServiceAvailability` (`internal/api/server.go`). Times are `Int`
nanoseconds, the `float64` availability is computed over `ℚ`, and the Go
map (whose final iteration order is irrelevant because the names are
sorted) is the pair of its key list and its lookup function. -/
def buildServiceAvailability (services : List Service) (incidents : List Incident)
    (periodStart periodEnd : Int) : List ServiceAvailability :=
  if periodEnd - periodStart ≤ 0 then []
  else
    let acc := incidents.foldl (availStep periodStart periodEnd) (seedKeys services, fun _ => 0)
    let names := List.insertionSort (fun a b => strLe a b = true) acc.1
    names.map (availRow acc periodStart periodEnd)

/-- The concrete alert refuting claim C2: the label key "metric" is present
but maps to the empty string, and the description does not contain
"timeout". -/
def metricEmptyAlert : Alert :=
  { id := "alt-000001", source := "grafana", title := "cpu", description := "all good",
    severity := "info", status := "received", labels := [("metric", "")],
    createdAt := 0, triage := none }

/-- A concrete triage report used to exercise the store update paths. -/
def sampleTriageReport : TriageReport :=
  { summary := "s", likelyRootCause := "r", suggestedActions := [], decision := "create_issue",
    issueTitle := "t", autoFixPlan := [], timeline := [], confidence := "medium", reviewedAt := 0 }

/-- A concrete critical alert submission (decision `start_incident`). -/
def criticalRequest : Alert :=
  { id := "", source := "", title := "DB latency", description := "db timeout observed",
    severity := "critical", status := "", labels := [], createdAt := 0, triage := none }

/-- A concrete warning alert submission (decision `auto_fix`, no incident). -/
def warningRequest : Alert :=
  { id := "", source := "grafana", title := "queue", description := "retry queue is increasing",
    severity := "warning", status := "received", labels := [], createdAt := 0, triage := none }

/-- The "payments" service of availability Scenario C. -/
def paymentsService : Service :=
  { id := "svc-000001", name := "payments", description := "", createdAt := 0 }

/-- The Scenario C incident: resolved, spanning `[now-2h, now-1h]` with
`now = 0`. -/
def scenarioCIncident : Incident :=
  { id := "inc-000001", alertID := "alt-000001", service := "payments", title := "outage",
    severity := "critical", status := "resolved", statusPageURL := "/status/alt-000001",
    createdAt := -(2 * nsPerHour), resolvedAt := some (-(1 * nsPerHour)) }

/-- Claim C1: every `Review` decision is one of `create_issue`,
`start_incident`, `auto_fix`; a critical alert always decides
`start_incident`; and a warning alert whose description contains both
"customer" and "retry" (case-insensitively) decides `auto_fix`, so
`auto_fix` takes precedence over `start_incident` when both predicates
hold. -/
theorem review_decision_cases (alert : Alert) (now : Int) :
    ((review now alert).decision = "create_issue" ∨
      (review now alert).decision = "start_incident" ∨
      (review now alert).decision = "auto_fix") ∧
    (alert.severity = "critical" → (review now alert).decision = "start_incident") ∧
    (alert.severity = "warning" →
      containsLower alert.description "customer" = true →
      containsLower alert.description "retry" = true →
      (review now alert).decision = "auto_fix") := by
  refine ⟨?_, ?_, ?_⟩
  · by_cases h3 : alert.severity = "warning" ∧ containsLower alert.description "retry" = true
    · simp [review, h3.1, h3.2]
    · by_cases h2 : alert.severity = "critical" ∨ containsLower alert.description "customer" = true
      · simp [review, h2, h3]
      · simp [review, h2, h3]
  · intro hc
    have h3 : ¬(alert.severity = "warning" ∧ containsLower alert.description "retry" = true) := by
      rintro ⟨hw, -⟩
      rw [hc] at hw
      exact absurd hw (by decide)
    simp [review, h3, hc]
  · intro hw _hcust hretry
    simp [review, hw, hretry]

/-- Witness for C1 at concrete alerts: a critical alert decides
`start_incident` and a warning "customer ... retry" alert decides
`auto_fix`. -/
theorem review_decision_cases_witness :
    (review 0 { id := "a", source := "grafana", title := "t", description := "db down",
                severity := "critical", status := "received", labels := [],
                createdAt := 0, triage := none }).decision = "start_incident" ∧
    (review 0 { id := "b", source := "grafana", title := "t", description := "customer retry spike",
                severity := "warning", status := "received", labels := [],
                createdAt := 0, triage := none }).decision = "auto_fix" :=
  ⟨(review_decision_cases _ 0).2.1 rfl,
   (review_decision_cases _ 0).2.2 rfl (by decide) (by decide)⟩

/-- Counterexample to claim C2: the code guards the anomaly root cause only
on *presence* of the "metric" label (`if metric, ok := alert.Labels["metric"]; ok`),
not on it being non-empty, so an alert with `metric ↦ ""` and no "timeout"
gets the anomaly string with an empty quoted metric, not the default. -/
theorem review_metric_empty_counterexample :
    (review 0 metricEmptyAlert).likelyRootCause
        = "Anomaly detected in metric \"\"; likely saturation/regression" ∧
      (review 0 metricEmptyAlert).likelyRootCause
        ≠ "Insufficient telemetry for root-cause confidence" := by
  constructor
  · decide
  · decide

/-- Claim C2 (amended): `likelyRootCause` is the timeout string when the
description contains "timeout" case-insensitively; otherwise the anomaly
string quoting `labels["metric"]` whenever the key "metric" is present
(even when it maps to the empty string); otherwise the default string. -/
theorem review_root_cause_rules (alert : Alert) (now : Int) :
    (containsLower alert.description "timeout" = true →
      (review now alert).likelyRootCause = "Downstream dependency timeout causing user impact") ∧
    (containsLower alert.description "timeout" = false →
      ∀ m, alert.labels.lookup "metric" = some m →
        (review now alert).likelyRootCause
          = "Anomaly detected in metric " ++ goQuote m ++ "; likely saturation/regression") ∧
    (containsLower alert.description "timeout" = false →
      alert.labels.lookup "metric" = none →
      (review now alert).likelyRootCause = "Insufficient telemetry for root-cause confidence") := by
  refine ⟨?_, ?_, ?_⟩
  · intro ht
    simp [review, ht]
  · intro ht m hm
    simp [review, ht, hm]
  · intro ht hm
    simp [review, ht, hm]

/-- Witness for C2's amended theorem at concrete alerts: each of the three
root-cause rules fires on a concrete input. -/
theorem review_root_cause_rules_witness :
    (review 0 { id := "a", source := "grafana", title := "t", description := "request TimeOut seen",
                severity := "info", status := "received", labels := [("metric", "cpu")],
                createdAt := 0, triage := none }).likelyRootCause
      = "Downstream dependency timeout causing user impact" ∧
    (review 0 { id := "b", source := "grafana", title := "t", description := "all good",
                severity := "info", status := "received", labels := [("metric", "cpu")],
                createdAt := 0, triage := none }).likelyRootCause
      = "Anomaly detected in metric \"cpu\"; likely saturation/regression" ∧
    (review 0 { id := "c", source := "grafana", title := "t", description := "all good",
                severity := "info", status := "received", labels := [],
                createdAt := 0, triage := none }).likelyRootCause
      = "Insufficient telemetry for root-cause confidence" :=
  ⟨(review_root_cause_rules _ 0).1 (by decide),
   (review_root_cause_rules _ 0).2.1 (by decide) "cpu" (by decide),
   (review_root_cause_rules _ 0).2.2 (by decide) (by decide)⟩

theorem find?_append_of_none {α : Type} (p : α → Bool) (l₁ l₂ : List α)
    (h : l₁.find? p = none) : (l₁ ++ l₂).find? p = l₂.find? p := by
  induction l₁ with
  | nil => rfl
  | cons a l ih =>
    cases hpa : p a with
    | true => simp [List.find?_cons, hpa] at h
    | false =>
      simp only [List.cons_append, List.find?_cons, hpa] at h ⊢
      exact ih h

theorem serviceKey_ne_empty (name : String) : serviceKey name ≠ "" := by
  unfold serviceKey
  split
  · decide
  · assumption

/-- Claim C8: `EnsureService` is idempotent — for any store state, calling
it twice with the same name returns the same service record (hence the
same id) both times, and the second call leaves the whole store, in
particular the service collection, unchanged. -/
theorem ensureService_idempotent (s : MemoryStore) (name : String) (now₁ now₂ : Int) :
    (ensureService (ensureService s name now₁).2 name now₂).1 = (ensureService s name now₁).1 ∧
      (ensureService (ensureService s name now₁).2 name now₂).2 = (ensureService s name now₁).2 := by
  unfold ensureService
  cases h : s.services.find? (fun svc => svc.name == serviceKey name) with
  | some svc => simp [h]
  | none =>
    simp only [h, nextID]
    have h2 : ((s.services ++
        [{ id := formatID "svc" (s.counter + 1), name := serviceKey name, description := "",
           createdAt := now₁ }] : List Service).find?
          (fun svc => svc.name == serviceKey name))
        = some { id := formatID "svc" (s.counter + 1), name := serviceKey name,
                 description := "", createdAt := now₁ } := by
      rw [find?_append_of_none _ _ _ h]
      simp [List.find?]
    simp [h2, nextID]

theorem updateFirstAlert_no_match (p : Alert → Bool) (f : Alert → Alert) (l : List Alert)
    (h : ∀ a ∈ l, p a = false) : updateFirstAlert p f l = l := by
  induction l with
  | nil => rfl
  | cons a rest ih =>
    simp [updateFirstAlert, h a (by simp)]
    exact ih fun b hb => h b (by simp [hb])

/-- Claim C9: updating the triage or the status of an alert id that
matches no stored alert returns a `nil` error and leaves the store (in
particular its alert collection) unchanged, so the caller cannot tell a
missing-alert update from a successful one. -/
theorem updateAlert_missing_is_silent (s : MemoryStore) (alertID : String)
    (triage : TriageReport) (status : String)
    (h : ∀ a ∈ s.alerts, a.id ≠ alertID) :
    updateAlertTriage s alertID triage = (none, s) ∧
      updateAlertStatus s alertID status = (none, s) := by
  have hp : ∀ a ∈ s.alerts, (a.id == alertID) = false := by
    intro a ha
    simp [h a ha]
  constructor
  · simp [updateAlertTriage, updateFirstAlert_no_match _ _ _ hp]
  · simp [updateAlertStatus, updateFirstAlert_no_match _ _ _ hp]

/-- Witness for C9 on the empty store: no alert matches, both updates are
silent no-ops. -/
theorem updateAlert_missing_is_silent_witness :
    updateAlertTriage newMemoryStore "alt-000001" sampleTriageReport = (none, newMemoryStore) ∧
      updateAlertStatus newMemoryStore "alt-000001" "incident_open" = (none, newMemoryStore) :=
  updateAlert_missing_is_silent newMemoryStore "alt-000001" sampleTriageReport "incident_open"
    (by simp [newMemoryStore])

/-- Claim C10: `EnsureService ""` behaves exactly as `EnsureService
"unknown"` (so it returns the existing "unknown" service or creates it),
and no operation that touches the service collection — starting from the
empty store, through `EnsureService` and `CreateIncident` — ever stores a
service with an empty name. -/
theorem ensureService_never_empty_name :
    (∀ s now, ensureService s "" now = ensureService s "unknown" now) ∧
      (∀ svc ∈ newMemoryStore.services, svc.name ≠ "") ∧
      (∀ s name now, (∀ svc ∈ s.services, svc.name ≠ "") →
        ∀ svc ∈ (ensureService s name now).2.services, svc.name ≠ "") ∧
      (∀ s incident now, (∀ svc ∈ s.services, svc.name ≠ "") →
        ∀ svc ∈ (createIncident s incident now).2.services, svc.name ≠ "") := by
  refine ⟨?_, ?_, ?_, ?_⟩
  · intro s now
    have : serviceKey "" = serviceKey "unknown" := by decide
    simp [ensureService, this]
  · simp [newMemoryStore]
  · intro s name now h svc hsvc
    unfold ensureService at hsvc
    cases hfind : s.services.find? (fun svc => svc.name == serviceKey name) with
    | some found =>
      rw [hfind] at hsvc
      exact h svc hsvc
    | none =>
      rw [hfind] at hsvc
      simp only [nextID, List.mem_append, List.mem_singleton] at hsvc
      rcases hsvc with hmem | hmem
      · exact h svc hmem
      · rw [hmem]
        exact serviceKey_ne_empty name
  · intro s incident now h svc hsvc
    unfold createIncident at hsvc
    simp only [nextID] at hsvc
    split at hsvc
    · exact h svc hsvc
    · simp only [List.mem_append, List.mem_singleton] at hsvc
      rcases hsvc with hmem | hmem
      · exact h svc hmem
      · rw [hmem]
        exact serviceKey_ne_empty incident.service

/-- Witness for C10 at concrete inputs: the service created by
`EnsureService` on the empty store, and the "unknown" service created by
`CreateIncident` for an incident with a blank service, both have non-empty
names. -/
theorem ensureService_never_empty_name_witness :
    ({ id := "svc-000001", name := "x", description := "", createdAt := 0 } : Service).name ≠ "" ∧
      ({ id := "svc-000002", name := "unknown", description := "", createdAt := 0 } : Service).name ≠ "" :=
  ⟨ensureService_never_empty_name.2.2.1 newMemoryStore "x" 0 (by simp [newMemoryStore])
      { id := "svc-000001", name := "x", description := "", createdAt := 0 } (by decide),
   ensureService_never_empty_name.2.2.2 newMemoryStore
      { id := "", alertID := "a", service := "", title := "t", severity := "critical",
        status := "investigating", statusPageURL := "/status/a", createdAt := 0,
        resolvedAt := none } 0 (by simp [newMemoryStore])
      { id := "svc-000002", name := "unknown", description := "", createdAt := 0 } (by decide)⟩

theorem serviceKey_of_label (c : String) :
    serviceKey (if c ≠ "" then c else "unknown") = if c = "" then "unknown" else c := by
  by_cases hc : c = "" <;> simp [serviceKey, hc]

/-- Claim C3: against the in-memory store, where every persistence call
succeeds, `handleCreateAlert` creates an incident iff the triage decision
is `start_incident`; a created incident carries the documented title,
status, status-page URL, severity, alert id, and a service resolved from
`labels["service"]` with fallback "unknown" when the label is absent or
blank; and the returned alert's status is "incident_open" iff an incident
was created, else "triaged". -/
theorem handleCreateAlert_spec (s : MemoryStore) (alertRequest : Alert) (now : Int) :
    (∃ rep, (handleCreateAlert s alertRequest now).2.1.triage = some rep ∧
        ((handleCreateAlert s alertRequest now).2.2.isSome = true ↔
          rep.decision = "start_incident")) ∧
      (∀ inc, (handleCreateAlert s alertRequest now).2.2 = some inc →
        inc.title = "Auto-created incident for triaged alert: "
              ++ (handleCreateAlert s alertRequest now).2.1.title ∧
          inc.status = "investigating" ∧
          inc.statusPageURL = "/status/" ++ (handleCreateAlert s alertRequest now).2.1.id ∧
          inc.severity = (handleCreateAlert s alertRequest now).2.1.severity ∧
          inc.alertID = (handleCreateAlert s alertRequest now).2.1.id ∧
          inc.service =
            (if ((handleCreateAlert s alertRequest now).2.1.labels.lookup "service").getD "" = ""
             then "unknown"
             else ((handleCreateAlert s alertRequest now).2.1.labels.lookup "service").getD "") ∧
          (handleCreateAlert s alertRequest now).2.1.status = "incident_open") ∧
      ((handleCreateAlert s alertRequest now).2.2 = none →
        (handleCreateAlert s alertRequest now).2.1.status = "triaged") := by
  simp only [handleCreateAlert]
  split
  next hd =>
    refine ⟨⟨_, rfl, ?_⟩, ?_, ?_⟩
    · simp [hd]
    · intro inc hinc
      simp at hinc
    · intro _
      rfl
  next hd =>
    rw [not_not] at hd
    refine ⟨⟨_, rfl, ?_⟩, ?_, ?_⟩
    · simp [hd]
    · intro inc hinc
      rw [Option.some_inj] at hinc
      subst hinc
      refine ⟨rfl, rfl, rfl, rfl, rfl, ?_, rfl⟩
      simp only [createIncident]
      exact serviceKey_of_label _
    · intro hnone
      simp at hnone

/-- Witness for C3 at concrete submissions: a critical alert opens an
incident and ends at status "incident_open"; a warning "retry" alert
creates no incident and ends at status "triaged". -/
theorem handleCreateAlert_spec_witness :
    (handleCreateAlert newMemoryStore criticalRequest 0).2.1.status = "incident_open" ∧
      (handleCreateAlert newMemoryStore warningRequest 0).2.1.status = "triaged" :=
  ⟨((handleCreateAlert_spec newMemoryStore criticalRequest 0).2.1
      { id := "inc-000003", alertID := "alt-000001", service := "unknown",
        title := "Auto-created incident for triaged alert: DB latency", severity := "critical",
        status := "investigating", statusPageURL := "/status/alt-000001", createdAt := 0,
        resolvedAt := none } (by decide)).2.2.2.2.2.2,
   (handleCreateAlert_spec newMemoryStore warningRequest 0).2.2 (by decide)⟩

theorem statusStep_major (incident : Incident) :
    statusStep "major_outage" incident = "major_outage" := by
  unfold statusStep
  split
  · rfl
  · split
    · rfl
    · split
      · next h => exact absurd h (by decide)
      · rfl

/-- Claim C5: the overall status starts at "operational"; an open
("investigating" or "identified") critical incident sets "major_outage"
unconditionally; an open non-critical incident sets
"degraded_performance" only from the "operational" baseline; and once
"major_outage" is reached, processing any further incidents, in any
order, leaves it at "major_outage". -/
theorem overallStatus_once_major :
    overallStatus [] = "operational" ∧
      (∀ overall incident,
        (incident.status = "investigating" ∨ incident.status = "identified") →
        incident.severity = "critical" → statusStep overall incident = "major_outage") ∧
      (∀ overall incident,
        (incident.status = "investigating" ∨ incident.status = "identified") →
        incident.severity ≠ "critical" →
        statusStep overall incident
          = if overall = "operational" then "degraded_performance" else overall) ∧
      (∀ incidents : List Incident,
        incidents.foldl statusStep "major_outage" = "major_outage") := by
  refine ⟨rfl, ?_, ?_, ?_⟩
  · intro overall incident hopen hcrit
    have hnc : ¬(incident.status ≠ "investigating" ∧ incident.status ≠ "identified") := by
      rcases hopen with h | h <;> simp [h]
    simp [statusStep, hnc, hcrit]
  · intro overall incident hopen hncrit
    have hnc : ¬(incident.status ≠ "investigating" ∧ incident.status ≠ "identified") := by
      rcases hopen with h | h <;> simp [h]
    simp [statusStep, hnc, hncrit]
  · intro incidents
    induction incidents with
    | nil => rfl
    | cons i l ih =>
      rw [List.foldl_cons, statusStep_major]
      exact ih

/-- Witness for C5 at concrete incidents: an open critical incident forces
"major_outage" from either baseline, and an open warning incident only
degrades the "operational" baseline. -/
theorem overallStatus_once_major_witness :
    statusStep "operational"
        { id := "inc-1", alertID := "a", service := "payments", title := "t",
          severity := "critical", status := "investigating", statusPageURL := "",
          createdAt := 0, resolvedAt := none } = "major_outage" ∧
      statusStep "major_outage"
          { id := "inc-2", alertID := "b", service := "payments", title := "t",
            severity := "warning", status := "identified", statusPageURL := "",
            createdAt := 0, resolvedAt := none } = "major_outage" ∧
      statusStep "operational"
          { id := "inc-3", alertID := "c", service := "payments", title := "t",
            severity := "warning", status := "identified", statusPageURL := "",
            createdAt := 0, resolvedAt := none } = "degraded_performance" :=
  ⟨overallStatus_once_major.2.1 "operational" _ (Or.inl rfl) rfl,
   (overallStatus_once_major.2.2.1 "major_outage" _ (Or.inr rfl) (by decide)).trans (by simp),
   (overallStatus_once_major.2.2.1 "operational" _ (Or.inr rfl) (by decide)).trans (by simp)⟩

theorem charListLe_total : ∀ a b : List Char, charListLe a b = true ∨ charListLe b a = true := by
  intro a
  induction a with
  | nil => intro b; left; rfl
  | cons x xs ih =>
    intro b
    cases b with
    | nil => right; rfl
    | cons y ys =>
      by_cases h1 : x.toNat < y.toNat
      · left; simp [charListLe, h1]
      · by_cases h2 : y.toNat < x.toNat
        · right; simp [charListLe, h2]
        · rcases ih ys with h | h
          · left; simp [charListLe, h1, h2, h]
          · right; simp [charListLe, h1, h2, h]

theorem charListLe_trans : ∀ a b c : List Char,
    charListLe a b = true → charListLe b c = true → charListLe a c = true := by
  intro a
  induction a with
  | nil => intro b c _ _; rfl
  | cons x xs ih =>
    intro b c hab hbc
    cases b with
    | nil => simp [charListLe] at hab
    | cons y ys =>
      cases c with
      | nil => simp [charListLe] at hbc
      | cons z zs =>
        have hab' : x.toNat < y.toNat ∨ (x.toNat = y.toNat ∧ charListLe xs ys = true) := by
          by_cases h1 : x.toNat < y.toNat
          · exact Or.inl h1
          · by_cases h2 : y.toNat < x.toNat
            · rw [charListLe, if_neg h1, if_pos h2] at hab
              simp at hab
            · exact Or.inr ⟨by omega, by rwa [charListLe, if_neg h1, if_neg h2] at hab⟩
        have hbc' : y.toNat < z.toNat ∨ (y.toNat = z.toNat ∧ charListLe ys zs = true) := by
          by_cases h1 : y.toNat < z.toNat
          · exact Or.inl h1
          · by_cases h2 : z.toNat < y.toNat
            · rw [charListLe, if_neg h1, if_pos h2] at hbc
              simp at hbc
            · exact Or.inr ⟨by omega, by rwa [charListLe, if_neg h1, if_neg h2] at hbc⟩
        rcases hab' with h1 | ⟨he1, hr1⟩ <;> rcases hbc' with h2 | ⟨he2, hr2⟩
        · simp [charListLe, show x.toNat < z.toNat by omega]
        · simp [charListLe, show x.toNat < z.toNat by omega]
        · simp [charListLe, show x.toNat < z.toNat by omega]
        · rw [charListLe, if_neg (by omega), if_neg (by omega)]
          exact ih ys zs hr1 hr2

theorem mem_addKey_of_mem (ks : List String) (k a : String) (h : a ∈ ks) : a ∈ addKey ks k := by
  unfold addKey
  split
  · exact h
  · exact List.mem_append_left _ h

theorem mem_addKey_self (ks : List String) (k : String) : k ∈ addKey ks k := by
  unfold addKey
  split
  · assumption
  · exact List.mem_append_right _ (by simp)

theorem foldl_seedStep_mono (services : List Service) :
    ∀ (ks : List String) (k : String), k ∈ ks → k ∈ services.foldl seedStep ks := by
  induction services with
  | nil => exact fun ks k h => h
  | cons s l ih =>
    intro ks k h
    rw [List.foldl_cons]
    apply ih
    unfold seedStep
    split
    · exact h
    · exact mem_addKey_of_mem _ _ _ h

theorem mem_foldl_seedStep (services : List Service) :
    ∀ (ks : List String) (svc : Service), svc ∈ services → svc.name ≠ "" →
      svc.name ∈ services.foldl seedStep ks := by
  induction services with
  | nil =>
    intro ks svc h _
    exact absurd h (List.not_mem_nil _)
  | cons s l ih =>
    intro ks svc h hn
    rw [List.foldl_cons]
    rcases List.mem_cons.mp h with rfl | hmem
    · apply foldl_seedStep_mono
      rw [seedStep, if_neg hn]
      exact mem_addKey_self _ _
    · exact ih _ svc hmem hn

theorem mem_seedKeys (services : List Service) (svc : Service) (h : svc ∈ services)
    (hn : svc.name ≠ "") : svc.name ∈ seedKeys services :=
  mem_foldl_seedStep services [] svc h hn

theorem availStep_keys (periodStart periodEnd : Int) (acc : List String × (String → Int))
    (incident : Incident) :
    (availStep periodStart periodEnd acc incident).1
      = addKey acc.1 (attributedService incident) := by
  simp only [availStep]
  repeat' split
  all_goals rfl

theorem availStep_fun (periodStart periodEnd : Int) (acc : List String × (String → Int))
    (incident : Incident) (n : String) :
    (availStep periodStart periodEnd acc incident).2 n
      = (if attributedService incident = n
         then acc.2 n + incidentCharge periodStart periodEnd incident
         else acc.2 n) := by
  simp only [availStep, incidentCharge]
  repeat' split
  all_goals simp_all
  all_goals intro he
  all_goals exact absurd he.symm (by assumption)

theorem foldl_availStep_fun (periodStart periodEnd : Int) (incidents : List Incident) :
    ∀ (acc : List String × (String → Int)) (n : String),
      (incidents.foldl (availStep periodStart periodEnd) acc).2 n
        = acc.2 n + chargeSum periodStart periodEnd n incidents := by
  induction incidents with
  | nil =>
    intro acc n
    simp [chargeSum]
  | cons i l ih =>
    intro acc n
    rw [List.foldl_cons, ih, availStep_fun]
    unfold chargeSum
    rw [List.map_cons, List.sum_cons]
    split <;> omega

theorem foldl_availStep_keys (periodStart periodEnd : Int) (incidents : List Incident) :
    ∀ (acc : List String × (String → Int)) (k : String), k ∈ acc.1 →
      k ∈ (incidents.foldl (availStep periodStart periodEnd) acc).1 := by
  induction incidents with
  | nil => exact fun acc k h => h
  | cons i l ih =>
    intro acc k h
    rw [List.foldl_cons]
    refine ih _ k ?_
    rw [availStep_keys]
    exact mem_addKey_of_mem _ _ _ h

theorem ite_clamp_nonneg (q : ℚ) : 0 ≤ (if q < 0 then 0 else q) := by
  split
  · exact le_refl 0
  · next h' => exact not_lt.mp h'

theorem ite_clamp_le {q c : ℚ} (hc : 0 ≤ c) (hq : q ≤ c) : (if q < 0 then 0 else q) ≤ c := by
  split
  · exact hc
  · exact hq

theorem int_clamp_nonneg (d : Int) : (0 : Int) ≤ (if d < 0 then 0 else d) := by
  split
  · exact le_refl 0
  · next h' => exact not_lt.mp h'

theorem availRow_bounds (acc : List String × (String → Int)) (periodStart periodEnd : Int)
    (name : String) (h : periodEnd - periodStart > 0) :
    0 ≤ (availRow acc periodStart periodEnd name).availabilityPercent ∧
      (availRow acc periodStart periodEnd name).availabilityPercent ≤ 100 ∧
      0 ≤ (availRow acc periodStart periodEnd name).downtimeMinutes := by
  simp only [availRow]
  have hd : (0 : Int) ≤ (if acc.2 name < 0 then 0 else acc.2 name) := int_clamp_nonneg _
  have hpd : (0 : ℚ) < ((periodEnd - periodStart : Int) : ℚ) := by exact_mod_cast h
  have hfrac : (0 : ℚ) ≤
      (((if acc.2 name < 0 then 0 else acc.2 name) : Int) : ℚ)
        / ((periodEnd - periodStart : Int) : ℚ) * 100 := by
    apply mul_nonneg
    · apply div_nonneg
      · exact_mod_cast hd
      · exact le_of_lt hpd
    · norm_num
  refine ⟨ite_clamp_nonneg _, ite_clamp_le (by norm_num) (by linarith),
    Int.ediv_nonneg hd (by norm_num [nsPerMinute])⟩

theorem availRow_of_zero (acc : List String × (String → Int)) (periodStart periodEnd : Int)
    (name : String) (h : acc.2 name = 0) :
    availRow acc periodStart periodEnd name
      = { service := name, availabilityPercent := 100, downtimeMinutes := 0,
          periodStart := periodStart, periodEnd := periodEnd } := by
  simp [availRow, h]

/-- Claim C4: in `buildServiceAvailability`, an unresolved incident's end
is the period end; an incident ending before the window or starting after
it charges nothing; the accumulated downtime of each service is exactly
the sum, over the incident list, of each attributed incident's clipped
overlap with the window (overlaps summed, not merged); and in Scenario C
a "payments" service with one resolved incident spanning `[now-2h,
now-1h]` over the window `[now-3h, now]` gets 60 downtime minutes and
availability 200/3 ≈ 66.67. -/
theorem buildServiceAvailability_charges :
    (∀ (periodEnd : Int) (incident : Incident), incident.resolvedAt = none →
        incidentEndAt periodEnd incident = periodEnd) ∧
      (∀ (periodStart periodEnd : Int) (incident : Incident),
        incidentEndAt periodEnd incident < periodStart ∨ incident.createdAt > periodEnd →
        incidentCharge periodStart periodEnd incident = 0) ∧
      (∀ (services : List Service) (incidents : List Incident) (periodStart periodEnd : Int)
          (n : String),
        (incidents.foldl (availStep periodStart periodEnd) (seedKeys services, fun _ => 0)).2 n
          = chargeSum periodStart periodEnd n incidents) ∧
      buildServiceAvailability [paymentsService] [scenarioCIncident] (-(3 * nsPerHour)) 0
        = [{ service := "payments", availabilityPercent := 200 / 3, downtimeMinutes := 60,
             periodStart := -(3 * nsPerHour), periodEnd := 0 }] := by
  refine ⟨?_, ?_, ?_, ?_⟩
  · intro periodEnd incident h
    simp [incidentEndAt, h]
  · intro periodStart periodEnd incident h
    unfold incidentCharge
    rw [if_pos h]
  · intro services incidents periodStart periodEnd n
    rw [foldl_availStep_fun]
    simp
  · simp [buildServiceAvailability, seedKeys, seedStep, addKey, availStep, attributedService,
      incidentEndAt, paymentsService, scenarioCIncident, nsPerHour, nsPerMinute, availRow,
      List.insertionSort, List.orderedInsert, strLe, charListLe]
    norm_num

/-- Witness for C4 at concrete incidents: an open incident's end is the
period end, and an incident created after the period end charges
nothing. -/
theorem buildServiceAvailability_charges_witness :
    incidentEndAt 5
        { id := "i", alertID := "a", service := "s", title := "t", severity := "warning",
          status := "investigating", statusPageURL := "", createdAt := 1,
          resolvedAt := none } = 5 ∧
      incidentCharge 0 5
          { id := "j", alertID := "b", service := "s", title := "t", severity := "warning",
            status := "investigating", statusPageURL := "", createdAt := 7,
            resolvedAt := none } = 0 :=
  ⟨buildServiceAvailability_charges.1 5 _ rfl,
   buildServiceAvailability_charges.2.1 0 5 _ (Or.inr (by decide))⟩

/-- Claim C6: for a window with `periodEnd > periodStart`, every output
row of `buildServiceAvailability` has `availabilityPercent ∈ [0, 100]`
and `downtimeMinutes ≥ 0`; the output is sorted ascending by service
name; and every known service with a non-empty name and no attributed
incident appears with availability 100 and zero downtime minutes. -/
theorem buildServiceAvailability_output (services : List Service) (incidents : List Incident)
    (periodStart periodEnd : Int) (h : periodEnd - periodStart > 0) :
    (∀ row ∈ buildServiceAvailability services incidents periodStart periodEnd,
        0 ≤ row.availabilityPercent ∧ row.availabilityPercent ≤ 100 ∧
          0 ≤ row.downtimeMinutes) ∧
      List.Pairwise (fun a b => strLe a.service b.service = true)
        (buildServiceAvailability services incidents periodStart periodEnd) ∧
      (∀ svc ∈ services, svc.name ≠ "" →
        (∀ incident ∈ incidents, attributedService incident ≠ svc.name) →
        { service := svc.name, availabilityPercent := 100, downtimeMinutes := 0,
          periodStart := periodStart, periodEnd := periodEnd }
          ∈ buildServiceAvailability services incidents periodStart periodEnd) := by
  have hne : ¬(periodEnd - periodStart ≤ 0) := not_le.mpr h
  have hbuild : buildServiceAvailability services incidents periodStart periodEnd
      = (List.insertionSort (fun a b => strLe a b = true)
            (incidents.foldl (availStep periodStart periodEnd)
              (seedKeys services, fun _ => 0)).1).map
          (availRow
            (incidents.foldl (availStep periodStart periodEnd) (seedKeys services, fun _ => 0))
            periodStart periodEnd) := by
    simp only [buildServiceAvailability, if_neg hne]
  rw [hbuild]
  refine ⟨?_, ?_, ?_⟩
  · intro row hrow
    rcases List.mem_map.mp hrow with ⟨name, _, rfl⟩
    exact availRow_bounds _ _ _ _ h
  · haveI : IsTotal String (fun a b => strLe a b = true) :=
      ⟨fun a b => charListLe_total a.data b.data⟩
    haveI : IsTrans String (fun a b => strLe a b = true) :=
      ⟨fun a b c hab hbc => charListLe_trans a.data b.data c.data hab hbc⟩
    rw [List.pairwise_map]
    exact (List.sorted_insertionSort (fun a b : String => strLe a b = true)
        (incidents.foldl (availStep periodStart periodEnd)
          (seedKeys services, fun _ => 0)).1).imp (fun hab => hab)
  · intro svc hsvc hn hno
    have hkey : svc.name ∈ (incidents.foldl (availStep periodStart periodEnd)
        (seedKeys services, fun _ => 0)).1 :=
      foldl_availStep_keys _ _ incidents _ svc.name (mem_seedKeys services svc hsvc hn)
    have hval : (incidents.foldl (availStep periodStart periodEnd)
        (seedKeys services, fun _ => 0)).2 svc.name = 0 := by
      rw [foldl_availStep_fun]
      have hz : chargeSum periodStart periodEnd svc.name incidents = 0 := by
        unfold chargeSum
        apply List.sum_eq_zero
        intro x hx
        rcases List.mem_map.mp hx with ⟨i, hi, rfl⟩
        rw [if_neg (hno i hi)]
      simp [hz]
    rw [← availRow_of_zero _ periodStart periodEnd svc.name hval]
    exact List.mem_map_of_mem _ ((List.perm_insertionSort _ _).mem_iff.mpr hkey)

/-- Witness for C6: a registered "payments" service with no incidents over
a one-hour window appears with availability 100 and zero downtime. -/
theorem buildServiceAvailability_output_witness :
    { service := "payments", availabilityPercent := 100, downtimeMinutes := 0,
      periodStart := -(1 * nsPerHour), periodEnd := 0 }
      ∈ buildServiceAvailability [paymentsService] [] (-(1 * nsPerHour)) 0 :=
  (buildServiceAvailability_output [paymentsService] [] (-(1 * nsPerHour)) 0
      (by decide)).2.2 paymentsService (by decide) (by decide) (by simp)

/-- Claim C7: `buildServiceAvailability` returns the empty list for a
degenerate window (`periodEnd - periodStart ≤ 0`), and it is a total
function — in particular empty service and incident collections produce
the empty list rather than a failure. -/
theorem buildServiceAvailability_never_fails :
    (∀ (services : List Service) (incidents : List Incident) (periodStart periodEnd : Int),
        periodEnd - periodStart ≤ 0 →
        buildServiceAvailability services incidents periodStart periodEnd = []) ∧
      (∀ periodStart periodEnd : Int,
        buildServiceAvailability [] [] periodStart periodEnd = []) := by
  constructor
  · intro services incidents periodStart periodEnd h
    simp [buildServiceAvailability, h]
  · intro periodStart periodEnd
    by_cases h : periodEnd - periodStart ≤ 0
    · simp [buildServiceAvailability, h]
    · simp [buildServiceAvailability, h, seedKeys, List.insertionSort]

/-- Witness for C7: an empty window and an empty input each give the
empty list. -/
theorem buildServiceAvailability_never_fails_witness :
    buildServiceAvailability [] [] 5 5 = [] ∧ buildServiceAvailability [] [] 0 1 = [] :=
  ⟨buildServiceAvailability_never_fails.1 [] [] 5 5 (by decide),
   buildServiceAvailability_never_fails.2 0 1⟩

end Autopsy
